import Mathlib

/-!
Shallow embedding of the `helper_structs` package
(`src/helper_structs/result.py`, `failure.py`, `safe_exec.py`).

Python is dynamically typed, so container slots hold values of a single
universal value type `PyVal`.  A raised Python exception is modelled by the
`Except PyExc` monad: a function that may raise returns `Except PyExc α`,
and a `try/except Exception` block is a `match` on that result.  Functions
of the source that contain no `try` block and call user code are therefore
embedded with return type `Except PyExc _` (the fault propagates); functions
whose body is wrapped in `try/except` are total and return a plain value.
-/

namespace HelperStructs

/-- A Python exception object: its class name and its message string. -/
structure PyExc where
  kind : String
  msg : String
deriving DecidableEq

/-- Universal type of Python runtime values, covering the values the
`helper_structs` code stores in its containers: `None`, booleans, integers,
strings, exception objects, tuples and string-keyed dicts. -/
inductive PyVal where
  | none
  | bool (b : Bool)
  | int (n : Int)
  | str (s : String)
  | exc (e : PyExc)
  | tuple (xs : List PyVal)
  | dict (xs : List (String × PyVal))

/-- `type(v).__name__` for a `PyVal`. -/
def typeName : PyVal → String
  | .none => "NoneType"
  | .bool _ => "bool"
  | .int _ => "int"
  | .str _ => "str"
  | .exc e => e.kind
  | .tuple _ => "tuple"
  | .dict _ => "dict"

mutual

/-- Python `repr()` of a value (elements of containers render this way). -/
def pyRepr : PyVal → String
  | .none => "None"
  | .bool b => cond b "True" "False"
  | .int n => toString n
  | .str s => "\x27" ++ s ++ "\x27"
  | .exc e => e.kind ++ "(\x27" ++ e.msg ++ "\x27)"
  | .tuple xs => "(" ++ pyReprList xs ++ ")"
  | .dict xs => "\x7b" ++ pyReprDict xs ++ "\x7d"

def pyReprList : List PyVal → String
  | [] => ""
  | [x] => pyRepr x
  | x :: xs => pyRepr x ++ ", " ++ pyReprList xs

def pyReprDict : List (String × PyVal) → String
  | [] => ""
  | [(k, v)] => "\x27" ++ k ++ "\x27: " ++ pyRepr v
  | (k, v) :: xs => "\x27" ++ k ++ "\x27: " ++ pyRepr v ++ ", " ++ pyReprDict xs

end

/-- Python `str()` of a value, as used by f-string interpolation: like
`repr` but top-level strings are unquoted and a top-level exception renders
as its message. -/
def pyStr : PyVal → String
  | .str s => s
  | .exc e => e.msg
  | v => pyRepr v

/-- The `_failure` dictionary attached to an `Err` (`dict[str, Any]`),
modelled as an association list in insertion order. -/
abbrev FailureDict := List (String × PyVal)

/-- A Python callable as the combinators see it: its `__name__` and its
behavior when called on a tuple of positional arguments and a dict of
keyword arguments; the call either returns a value or raises. -/
structure PyFunc where
  name : String
  fn : List PyVal → List (String × PyVal) → Except PyExc PyVal

/-- The `Result` class of `result.py`: slots `_val`, `_is_ok`, `_type`
(the runtime type tag `type(_val)`) and `_failure`. -/
structure Result where
  val : PyVal
  isOk : Bool
  typ : String
  failure : FailureDict

/-- The message of the `TypeError` raised by `Result.__init__` when the
`_build` flag is not set. -/
def initMsg : String :=
  "This class can\x27t be initialized directly; please use one of the " ++
  "constructor methods Result.Ok() or Result.Err()."

/-- `Result.__init__(_val, _is_ok, _build, _failure)`: raises `TypeError`
unless `_build` is true (its default is `False`, `_failure` defaults to the
empty dict); otherwise populates the slots, recording `type(_val)`. -/
def Result.init (v : PyVal) (ok : Bool) (build : Bool) (failure : FailureDict) :
    Except PyExc Result :=
  if build then .ok ⟨v, ok, typeName v, failure⟩
  else .error ⟨"TypeError", initMsg⟩

/-- `Result.Ok(val)`: `cls(val, True, _build=True)`. -/
def Result.Ok (v : PyVal) : Result := ⟨v, true, typeName v, []⟩

/-- `Result.Err(err, failure)`: `cls(err, False, _build=True, _failure=failure)`;
the `failure` parameter defaults to the empty dict at call sites. -/
def Result.Err (e : PyVal) (failure : FailureDict) : Result :=
  ⟨e, false, typeName e, failure⟩

/-- The `is_ok` property. -/
def Result.is_ok (r : Result) : Bool := r.isOk

/-- The `is_err` property: `not self._is_ok`. -/
def Result.is_err (r : Result) : Bool := !r.isOk

/-- `Result.unwrap()`: the value on `Ok`, else raises
`ValueError(f"Contents of Result is Err: {self._val}")`. -/
def Result.unwrap (r : Result) : Except PyExc PyVal :=
  if r.isOk then .ok r.val
  else .error ⟨"ValueError", "Contents of Result is Err: " ++ pyStr r.val⟩

/-- `Result.unwrap_or(default)`: total, never raises. -/
def Result.unwrap_or (r : Result) (default : PyVal) : PyVal :=
  if r.isOk then r.val else default

/-- `Result.unwrap_or_else(op)`: `self._val if self._is_ok else op(self._val)`;
there is no `try` block, so a fault raised by `op` propagates. -/
def Result.unwrap_or_else (r : Result) (op : PyFunc) : Except PyExc PyVal :=
  if r.isOk then .ok r.val else op.fn [r.val] []

/-- `Result.expect(msg)`: the value on `Ok`, else raises `ValueError(msg)`. -/
def Result.expect (r : Result) (msg : String) : Except PyExc PyVal :=
  if r.isOk then .ok r.val else .error ⟨"ValueError", msg⟩

/-- `Result.unwrap_err()`: the fault on `Err`, else raises
`ValueError(f"Contents of Result is Ok: {self._val}")`. -/
def Result.unwrap_err (r : Result) : Except PyExc PyVal :=
  if !r.isOk then .ok r.val
  else .error ⟨"ValueError", "Contents of Result is Ok: " ++ pyStr r.val⟩

/-- `Result.map(func)`:
`return Result.Ok(func(self._val)) if self._is_ok else self`.
There is no `try` block in the body, so a fault raised by `func`
propagates out of `map`. -/
def Result.map (r : Result) (func : PyFunc) : Except PyExc Result :=
  if r.isOk then
    match func.fn [r.val] [] with
    | .ok v => .ok (Result.Ok v)
    | .error e => .error e
  else .ok r

/-- `Result.map_err(func)`:
`return Result.Err(func(self._val)) if not self._is_ok else self`.
No `try` block, so a fault raised by `func` propagates; the new `Err`
is built with the default (empty) failure dict. -/
def Result.map_err (r : Result) (func : PyFunc) : Except PyExc Result :=
  if !r.isOk then
    match func.fn [r.val] [] with
    | .ok v => .ok (Result.Err v [])
    | .error e => .error e
  else .ok r

/-- `traceback.format_exc()` as called inside an `except` handler — the
trace snapshot of the active exception, modelled as an opaque textual
rendering of that exception. -/
def formatExc (e : PyExc) : String :=
  "Traceback (most recent call last):\n" ++ e.kind ++ ": " ++ e.msg

/-- The failure dict that `bind`/`bind_err` build inside their `except`
blocks, in the insertion order of the source. -/
def bindFailure (origin : PyVal) (e : PyExc) (func : PyFunc)
    (args : List PyVal) (kwargs : List (String × PyVal)) : FailureDict :=
  [("trace", .str (formatExc e)),
   ("_val", origin),
   ("exception", .exc e),
   ("func", .str func.name),
   ("args", .tuple args),
   ("kwargs", .dict kwargs)]

/-- `Result.bind(func, *args, **kwargs)`: `self` on `Err`; on `Ok`, calls
`func(self._val, *args, **kwargs)` inside `try/except Exception`, rewrapping
a normal return as `Ok` and converting a raised fault into
`Err(e, failure=...)` with the failure dict of `bindFailure`.  The
`except` makes the function total: it never raises. -/
def Result.bind (r : Result) (func : PyFunc) (args : List PyVal)
    (kwargs : List (String × PyVal)) : Result :=
  if !r.isOk then r
  else
    match func.fn (r.val :: args) kwargs with
    | .ok v => Result.Ok v
    | .error e => Result.Err (.exc e) (bindFailure r.val e func args kwargs)

/-- `Result.__rshift__(func)`: `return self.bind(func, *args, **kwargs)`. -/
def Result.rshift (r : Result) (func : PyFunc) (args : List PyVal)
    (kwargs : List (String × PyVal)) : Result :=
  r.bind func args kwargs

/-- `Result.bind_err(func, *args, **kwargs)`: `self` on `Ok`; on `Err`,
calls `func(self._val, *args, **kwargs)` inside `try/except Exception` —
a normal return `v` becomes `Err(v, failure=self._failure)` (the context is
carried over), a raised fault becomes `Err(e, failure=...)` as in `bind`. -/
def Result.bind_err (r : Result) (func : PyFunc) (args : List PyVal)
    (kwargs : List (String × PyVal)) : Result :=
  if r.isOk then r
  else
    match func.fn (r.val :: args) kwargs with
    | .ok v => Result.Err v r.failure
    | .error e => Result.Err (.exc e) (bindFailure r.val e func args kwargs)

/-- A chain `r.map(f1).map(f2)...map(fn)` of method calls: each call is
evaluated in order, and a fault raised by any of them aborts the chain
(propagates), exactly as the Python expression would. -/
def Result.mapChain (r : Result) : List PyFunc → Except PyExc Result
  | [] => .ok r
  | f :: fs =>
    match r.map f with
    | .ok r2 => Result.mapChain r2 fs
    | .error e => .error e

/-- The Python composition `lambda x: g(f(x))` of two callables. -/
def compose (f g : PyFunc) : PyFunc where
  name := "<lambda>"
  fn := fun args _kwargs =>
    match args with
    | [x] =>
      match f.fn [x] [] with
      | .ok w => g.fn [w] []
      | .error e => .error e
    | _ => .error ⟨"TypeError", "<lambda>() takes 1 positional argument"⟩

/-- The `FailureContainer` class of `failure.py`: attributes in assignment
order `func`, `args`, `kwargs`, `exception`, `val`, `trace`, `_additional`.
The constructor captures `trace = format_exc()` eagerly. -/
structure FailureContainer where
  func : PyVal
  args : PyVal
  kwargs : PyVal
  exception : PyVal
  val : PyVal
  trace : String
  additional : List (String × PyVal)

/-- Python `dict` assignment `d[k] = v` on an association list: overwrites
the existing binding in place, else appends. -/
def dictSet (d : FailureDict) (k : String) (v : PyVal) : FailureDict :=
  if d.any (fun p => p.1 == k) then
    d.map (fun p => if p.1 == k then (k, v) else p)
  else d ++ [(k, v)]

/-- Python `d.update(upd)`. -/
def dictUpdate (d upd : FailureDict) : FailureDict :=
  upd.foldl (fun acc p => dictSet acc p.1 p.2) d

/-- `FailureContainer.as_dict()`: a copy of `__dict__` with `_additional`
popped; if `_additional` is nonempty it is merged back into the dict via
`update` (its keys win on collision). -/
def FailureContainer.as_dict (c : FailureContainer) : FailureDict :=
  let base : FailureDict :=
    [("func", c.func), ("args", c.args), ("kwargs", c.kwargs),
     ("exception", c.exception), ("val", c.val), ("trace", .str c.trace)]
  if c.additional.isEmpty then base else dictUpdate base c.additional

/-- The wrapper produced by the `safe_exec` decorator of `safe_exec.py`,
applied to positional and keyword arguments: runs `func(*args, **kwargs)`
inside `try/except Exception`; a normal return becomes `Ok`, a raised
fault `e` becomes `Err(e, failure=f.as_dict())` where `f` is a
`FailureContainer` built with `func=func.__name__`, `args=args`,
`kwargs=kwargs`, `exception=e` (and the default `val=None`, the trace
captured inside the handler, no additional kwargs). -/
def safe_exec (func : PyFunc) (args : List PyVal)
    (kwargs : List (String × PyVal)) : Result :=
  match func.fn args kwargs with
  | .ok v => Result.Ok v
  | .error e =>
    let f : FailureContainer :=
      ⟨.str func.name, .tuple args, .dict kwargs, .exc e, .none, formatExc e, []⟩
    Result.Err (.exc e) f.as_dict

/-! Concrete callables used to instantiate the theorems on the inputs the
spec names. -/

/-- `lambda x: x * x` on integers. -/
def squareFn : PyFunc where
  name := "<lambda>"
  fn := fun args _ =>
    match args with
    | [.int n] => .ok (.int (n * n))
    | _ => .error ⟨"TypeError", "unsupported operand type(s) for *"⟩

/-- `lambda x: x / 0`: always raises `ZeroDivisionError`. -/
def divZeroFn : PyFunc where
  name := "<lambda>"
  fn := fun _ _ => .error ⟨"ZeroDivisionError", "division by zero"⟩

/-- A transform that raises `RuntimeError("boom")` on every call. -/
def raiserFn : PyFunc where
  name := "boom"
  fn := fun _ _ => .error ⟨"RuntimeError", "boom"⟩

/-- Decimal digits of a character list folded into a number, `none` as soon
as a non-digit appears. -/
def parseDigits (acc : Nat) : List Char → Option Nat
  | [] => some acc
  | c :: cs =>
    if c.isDigit then parseDigits (acc * 10 + (c.toNat - 48)) cs else Option.none

/-- Base-10 integer parsing in the style of Python `int()` on a trimmed
literal: an optional leading minus sign followed by at least one digit. -/
def strToInt (s : String) : Option Int :=
  match s.data with
  | [] => Option.none
  | ['-'] => Option.none
  | '-' :: c :: cs => (parseDigits 0 (c :: cs)).map (fun n => -(n : Int))
  | cs => (parseDigits 0 cs).map (fun n => (n : Int))

/-- `parse_int`: `int()` applied to a string argument — returns the parsed
integer or raises `ValueError` on an invalid literal. -/
def parse_int : PyFunc where
  name := "parse_int"
  fn := fun args _ =>
    match args with
    | [.str s] =>
      match strToInt s with
      | some n => .ok (.int n)
      | Option.none =>
        .error ⟨"ValueError",
          "invalid literal for int() with base 10: \x27" ++ s ++ "\x27"⟩
    | _ => .error ⟨"TypeError", "parse_int expected a string"⟩

/-- `len` applied to a string argument: its length, as used by the
`map_err(len)` doctest. -/
def lenFn : PyFunc where
  name := "len"
  fn := fun args _ =>
    match args with
    | [.str s] => .ok (.int s.length)
    | _ => .error ⟨"TypeError", "object has no len()"⟩

/-! ## Theorems -/

/-- Claim C1 counterexample: the claim says all four combinators catch a
fault raised by the transform; but `map` on `Ok(1)` with an always-raising
transform propagates the raised fault out of the combinator (the call
evaluates to a raised exception, not to an `Err` Result), and so does
`map_err` on an `Err`. -/
theorem C1_counterexample :
    (Result.Ok (.int 1)).map raiserFn =
      Except.error ⟨"RuntimeError", "boom"⟩ ∧
    (Result.Err (.str "fail") []).map_err raiserFn =
      Except.error ⟨"RuntimeError", "boom"⟩ :=
  ⟨rfl, rfl⟩

/-- Claim C1 (amended): `bind` and `bind_err` catch a fault raised by the
user-supplied transform at the call site and return an `Err` Result carrying
the failure dict (they are total, so the fault never propagates out of
them); `map` and `map_err` have no catch — a fault raised by the transform
there propagates out of the combinator. -/
theorem C1_catch_policy (r : Result) (func : PyFunc) (args : List PyVal)
    (kwargs : List (String × PyVal)) (e : PyExc) :
    (r.isOk = true → func.fn (r.val :: args) kwargs = .error e →
      r.bind func args kwargs =
        Result.Err (.exc e) (bindFailure r.val e func args kwargs)) ∧
    (r.isOk = false → func.fn (r.val :: args) kwargs = .error e →
      r.bind_err func args kwargs =
        Result.Err (.exc e) (bindFailure r.val e func args kwargs)) ∧
    (r.isOk = true → func.fn [r.val] [] = .error e →
      r.map func = Except.error e) ∧
    (r.isOk = false → func.fn [r.val] [] = .error e →
      r.map_err func = Except.error e) := by
  refine ⟨fun h hf => ?_, fun h hf => ?_, fun h hf => ?_, fun h hf => ?_⟩ <;>
    simp [Result.bind, Result.bind_err, Result.map, Result.map_err, h, hf]

theorem C1_catch_policy_witness :
    (Result.Ok (.int 1)).bind raiserFn [] [] =
      Result.Err (.exc ⟨"RuntimeError", "boom"⟩)
        (bindFailure (.int 1) ⟨"RuntimeError", "boom"⟩ raiserFn [] []) ∧
    (Result.Err (.str "fail") []).bind_err raiserFn [] [] =
      Result.Err (.exc ⟨"RuntimeError", "boom"⟩)
        (bindFailure (.str "fail") ⟨"RuntimeError", "boom"⟩ raiserFn [] []) ∧
    (Result.Ok (.int 1)).map raiserFn =
      Except.error ⟨"RuntimeError", "boom"⟩ :=
  ⟨(C1_catch_policy (Result.Ok (.int 1)) raiserFn [] []
      ⟨"RuntimeError", "boom"⟩).1 rfl rfl,
   ((C1_catch_policy (Result.Err (.str "fail") []) raiserFn [] []
      ⟨"RuntimeError", "boom"⟩).2.1 rfl rfl),
   ((C1_catch_policy (Result.Ok (.int 1)) raiserFn [] []
      ⟨"RuntimeError", "boom"⟩).2.2.1 rfl rfl)⟩

/-- Claim C2: the `safe_exec` boundary adapter returns `Ok(returned_value)`
on a normal return, and on a raised fault returns an `Err` whose failure
context has `func` (the function-name field) equal to the callable's
declared name and `args` (the arguments field) equal to the tuple of the
positional arguments supplied. -/
theorem C2_safe_exec_boundary (func : PyFunc) (args : List PyVal)
    (kwargs : List (String × PyVal)) :
    (∀ v, func.fn args kwargs = .ok v →
      safe_exec func args kwargs = Result.Ok v) ∧
    (∀ e, func.fn args kwargs = .error e →
      (safe_exec func args kwargs).isOk = false ∧
      (safe_exec func args kwargs).failure.lookup "func" =
        some (.str func.name) ∧
      (safe_exec func args kwargs).failure.lookup "args" =
        some (.tuple args)) := by
  constructor
  · intro v hv
    simp [safe_exec, hv]
  · intro e he
    refine ⟨?_, ?_, ?_⟩ <;>
      simp [safe_exec, he, FailureContainer.as_dict, Result.Err, List.lookup]

theorem C2_safe_exec_boundary_witness :
    safe_exec parse_int [.str "42"] [] = Result.Ok (.int 42) ∧
    (safe_exec parse_int [.str "abc"] []).isOk = false ∧
    (safe_exec parse_int [.str "abc"] []).failure.lookup "func" =
      some (.str "parse_int") ∧
    (safe_exec parse_int [.str "abc"] []).failure.lookup "args" =
      some (.tuple [.str "abc"]) :=
  ⟨(C2_safe_exec_boundary parse_int [.str "42"] []).1 (.int 42) rfl,
   (C2_safe_exec_boundary parse_int [.str "abc"] []).2
     ⟨"ValueError", "invalid literal for int() with base 10: \x27abc\x27"⟩ rfl⟩

/-- Claim C3: on `Ok(v)` with a transform that raises fault `e`, `bind`
returns an `Err` holding `e` whose failure dict records the transform's
name (`func`), the positional (`args`) and keyword (`kwargs`) arguments,
the origin value `_val = v`, the fault itself (`exception`) and a trace
snapshot (`trace`). -/
theorem C3_bind_failure_context (v : PyVal) (func : PyFunc)
    (args : List PyVal) (kwargs : List (String × PyVal)) (e : PyExc)
    (h : func.fn (v :: args) kwargs = .error e) :
    (Result.Ok v).bind func args kwargs =
      Result.Err (.exc e) (bindFailure v e func args kwargs) ∧
    (bindFailure v e func args kwargs).lookup "func" =
      some (.str func.name) ∧
    (bindFailure v e func args kwargs).lookup "_val" = some v ∧
    (bindFailure v e func args kwargs).lookup "args" = some (.tuple args) ∧
    (bindFailure v e func args kwargs).lookup "kwargs" =
      some (.dict kwargs) ∧
    (bindFailure v e func args kwargs).lookup "exception" =
      some (.exc e) ∧
    (bindFailure v e func args kwargs).lookup "trace" =
      some (.str (formatExc e)) := by
  refine ⟨?_, rfl, ?_, rfl, rfl, rfl, rfl⟩
  · simp [Result.bind, Result.Ok, h]
  · simp [bindFailure, List.lookup]

theorem C3_bind_failure_context_witness :
    ((Result.Ok (.int 10)).bind divZeroFn [] []).failure.lookup "func" =
      some (.str "<lambda>") ∧
    ((Result.Ok (.int 10)).bind divZeroFn [] []).failure.lookup "_val" =
      some (.int 10) ∧
    ((Result.Ok (.int 10)).bind divZeroFn [] []).isOk = false := by
  have h := C3_bind_failure_context (.int 10) divZeroFn [] []
      ⟨"ZeroDivisionError", "division by zero"⟩ rfl
  rw [h.1]
  exact ⟨h.2.1, h.2.2.1, rfl⟩

/-- Claim C4: `unwrap()` on `Ok(v)` returns `v`; on any `Err`, it raises a
`ValueError` whose message embeds the held fault, and never returns a
value. -/
theorem C4_unwrap_contract (r : Result) :
    (r.isOk = true → r.unwrap = .ok r.val) ∧
    (r.isOk = false →
      r.unwrap = .error
        ⟨"ValueError", "Contents of Result is Err: " ++ pyStr r.val⟩ ∧
      ∀ v, r.unwrap ≠ Except.ok v) := by
  constructor
  · intro h
    simp [Result.unwrap, h]
  · intro h
    constructor
    · simp [Result.unwrap, h]
    · intro v hv
      simp [Result.unwrap, h] at hv

theorem C4_unwrap_contract_witness :
    (Result.Ok (.int 10)).unwrap = Except.ok (.int 10) ∧
    (Result.Err (.str "fail") []).unwrap =
      Except.error ⟨"ValueError", "Contents of Result is Err: fail"⟩ ∧
    ∀ v, (Result.Err (.str "fail") []).unwrap ≠ Except.ok v :=
  ⟨(C4_unwrap_contract (Result.Ok (.int 10))).1 rfl,
   ((C4_unwrap_contract (Result.Err (.str "fail") [])).2 rfl).1,
   ((C4_unwrap_contract (Result.Err (.str "fail") [])).2 rfl).2⟩

/-- Claim C5: on `Ok(v)` with a non-faulting transform `f`, `map` returns
`Ok(f(v))`; on any `Err`, `map` returns the `Err` unchanged, and the
transform is never invoked — the outcome is the same for every transform,
including ones that would raise. -/
theorem C5_map_contract (v w : PyVal) (f g : PyFunc) (r : Result) :
    (f.fn [v] [] = .ok w → (Result.Ok v).map f = .ok (Result.Ok w)) ∧
    (r.isOk = false → r.map f = .ok r ∧ r.map f = r.map g) := by
  constructor
  · intro h
    simp [Result.map, Result.Ok, h]
  · intro h
    simp [Result.map, h]

theorem C5_map_contract_witness :
    (Result.Ok (.int 5)).map squareFn = .ok (Result.Ok (.int 25)) ∧
    (Result.Err (.str "fail") []).map squareFn =
      .ok (Result.Err (.str "fail") []) ∧
    (Result.Err (.str "fail") []).map squareFn =
      (Result.Err (.str "fail") []).map raiserFn :=
  ⟨(C5_map_contract (.int 5) (.int 25) squareFn raiserFn
      (Result.Err (.str "fail") [])).1 rfl,
   ((C5_map_contract (.int 5) (.int 25) squareFn raiserFn
      (Result.Err (.str "fail") [])).2 rfl).1,
   ((C5_map_contract (.int 5) (.int 25) squareFn raiserFn
      (Result.Err (.str "fail") [])).2 rfl).2⟩

/-- Claim C6: a Result is only obtained through the named constructors:
`__init__` invoked without the private `_build` flag (its default value)
raises a `TypeError` for every input instead of producing a Result, while
`Ok` and `Err` are exactly the `_build=True` invocations of it. -/
theorem C6_construction_guard (v : PyVal) (ok : Bool)
    (failure : FailureDict) :
    Result.init v ok false failure = .error ⟨"TypeError", initMsg⟩ ∧
    Result.init v true true [] = .ok (Result.Ok v) ∧
    Result.init v false true failure = .ok (Result.Err v failure) :=
  ⟨rfl, rfl, rfl⟩

/-- Claim C7: the error arm is absorbing — applying any chain of `map`
calls, of any length, to an `Err` Result yields that same Result back,
fault and failure context unchanged (and no fault escapes the chain). -/
theorem C7_err_absorbing (r : Result) (fs : List PyFunc)
    (h : r.isOk = false) :
    r.mapChain fs = .ok r := by
  induction fs with
  | nil => rfl
  | cons f fs ih =>
    simp [Result.mapChain, Result.map, h, ih]

theorem C7_err_absorbing_witness :
    (Result.Err (.str "fail") [("k", .int 1)]).mapChain
      [squareFn, raiserFn, lenFn] =
      .ok (Result.Err (.str "fail") [("k", .int 1)]) :=
  C7_err_absorbing (Result.Err (.str "fail") [("k", .int 1)])
    [squareFn, raiserFn, lenFn] rfl

/-- Claim C8: chaining associativity — for `r = Ok(v)` and transforms `f`,
`g` such that `f(v)` and `g(f(v))` do not fault,
`r.bind(f).bind(g)` equals `r.bind(lambda x: g(f(x)))`. -/
theorem C8_bind_assoc (v w u : PyVal) (f g : PyFunc)
    (hf : f.fn [v] [] = .ok w) (hg : g.fn [w] [] = .ok u) :
    ((Result.Ok v).bind f [] []).bind g [] [] =
      (Result.Ok v).bind (compose f g) [] [] := by
  simp [Result.bind, Result.Ok, compose, hf, hg]

theorem C8_bind_assoc_witness :
    ((Result.Ok (.int 2)).bind squareFn [] []).bind squareFn [] [] =
      (Result.Ok (.int 2)).bind (compose squareFn squareFn) [] [] :=
  C8_bind_assoc (.int 2) (.int 4) (.int 16) squareFn squareFn rfl rfl

/-- Claim C9: `unwrap_or` and `unwrap_or_else` never fail — on `Ok` both
return the success value; on `Err`, `unwrap_or(default)` returns exactly
`default` whatever the fault is, and `unwrap_or_else(fallback)` returns
`fallback` applied to the fault, provided `fallback` itself does not
fault. -/
theorem C9_default_extractors (r : Result) (d w : PyVal) (op : PyFunc) :
    (r.isOk = true →
      r.unwrap_or d = r.val ∧ r.unwrap_or_else op = .ok r.val) ∧
    (r.isOk = false →
      r.unwrap_or d = d ∧
      (op.fn [r.val] [] = .ok w → r.unwrap_or_else op = .ok w)) := by
  constructor
  · intro h
    constructor <;> simp [Result.unwrap_or, Result.unwrap_or_else, h]
  · intro h
    constructor
    · simp [Result.unwrap_or, h]
    · intro hop
      simp [Result.unwrap_or_else, h, hop]

theorem C9_default_extractors_witness :
    (Result.Ok (.int 10)).unwrap_or (.int 2) = .int 10 ∧
    (Result.Err (.str "fail") []).unwrap_or (.int 2) = .int 2 ∧
    (Result.Err (.str "fail") []).unwrap_or_else lenFn =
      .ok (.int 4) :=
  ⟨((C9_default_extractors (Result.Ok (.int 10)) (.int 2) (.int 4)
      lenFn).1 rfl).1,
   ((C9_default_extractors (Result.Err (.str "fail") []) (.int 2) (.int 4)
      lenFn).2 rfl).1,
   ((C9_default_extractors (Result.Err (.str "fail") []) (.int 2) (.int 4)
      lenFn).2 rfl).2 rfl⟩

/-- Claim C10: on an `Err` with failure context `d` and a non-faulting
transform of the fault, `map_err` returns an `Err` holding the transformed
fault but with the empty failure dict — the original context `d` is
discarded, whatever it was. -/
theorem C10_map_err_discards_context (r : Result) (f : PyFunc) (w : PyVal)
    (h1 : r.isOk = false) (h2 : f.fn [r.val] [] = .ok w) :
    r.map_err f = .ok (Result.Err w []) ∧
    (Result.Err w []).failure = [] := by
  refine ⟨?_, rfl⟩
  simp [Result.map_err, h1, h2]

theorem C10_map_err_discards_context_witness :
    (Result.Err (.str "fail") [("err", .str "Error")]).map_err lenFn =
      .ok (Result.Err (.int 4) []) ∧
    (Result.Err (.int 4) []).failure = [] :=
  C10_map_err_discards_context
    (Result.Err (.str "fail") [("err", .str "Error")]) lenFn (.int 4)
    rfl rfl

end HelperStructs
